import Mathlib

/-
  Shallow embedding of the inventory reservation and order-settlement engine
  of the E-commerce backend (FastAPI/SQLAlchemy service layer).

  Sources embedded:
  - src/services/inventory_services.py  (reserve_stock, finalize_stock,
    rollback_stock with the stock_rollback_done idempotency flag and the
    underflow clamp)
  - src/services/order_services.py      (OrderService: _rollback_inventory,
    create_order_from_cart, update_status, attach_payment; ALLOWED_STATUSES;
    _quantize_money)
  - src/controllers/inventory_controller.py (update_inventory, the
    administrative total-stock adjustment)
  - src/Services/order_services.py      (the earlier draft OrderService;
    only its update_status validation against its own ALLOWED_STATUSES set
    is embedded, as DraftService.update_status)

  Modelling conventions: Python integers are Int (unbounded, may go
  negative); Decimal monetary values are Rat (Decimal arithmetic on the
  values occurring here is exact rational arithmetic, and ROUND_HALF_UP
  quantization is modelled exactly by roundHalfUp below); the SQLAlchemy
  session is explicit state passing over a DB record, where raising
  HTTPException before db.commit() discards the whole pending unit of work
  (the session is rolled back / closed without commit), modelled by the
  Except error branch carrying no successor state.
-/

deriving instance DecidableEq for Except

attribute [local semireducible] Rat.add Rat.mul Rat.sub Rat.inv Rat.ofScientific

namespace ECom

/-- HTTPException as raised by the service layer: a status code and a detail
message. -/
structure HTTPExc where
  status_code : Nat
  detail : String
deriving Repr, DecidableEq

/-- Inventory record, one per product (models.inventory_model.Inventory):
per-product counters total_stock, available_stock, reserved_stock. -/
structure Inventory where
  product_id : Nat
  total_stock : Int
  available_stock : Int
  reserved_stock : Int
deriving Repr, DecidableEq

/-- The spec invariant on a single inventory record: available_stock and
reserved_stock are nonnegative and their sum is bounded by total_stock. -/
def Invariant (inv : Inventory) : Prop :=
  0 ≤ inv.available_stock ∧ 0 ≤ inv.reserved_stock ∧
    inv.available_stock + inv.reserved_stock ≤ inv.total_stock

instance (inv : Inventory) : Decidable (Invariant inv) := by
  unfold Invariant; infer_instance

/-- Order row (models.order_model.Order), with the fields the embedded
services read or write. Monetary fields are Decimal in the source. -/
structure Order where
  id : Nat
  user_id : Nat
  shipping_address : Option String
  payment_method : Option String
  status : String
  total_items : Int
  subtotal : Rat
  tax : Rat
  discount : Rat
  grand_total : Rat
  payment_status : Option String
  transaction_id : Option String
  amount_paid : Option Rat
  stock_rollback_done : Bool
deriving Repr, DecidableEq

/-- Order line item (models.order_model.OrderItem). -/
structure OrderItem where
  order_id : Nat
  product_id : Nat
  product_name : String
  unit_price : Rat
  quantity : Int
  total_price : Rat
deriving Repr, DecidableEq

/-- Product row, restricted to the fields create_order_from_cart reads. -/
structure Product where
  id : Nat
  name : String
  price : Rat
  status : String
deriving Repr, DecidableEq

/-- Cart line item (models.cart_model), consumed read-only by the core. -/
structure CartItem where
  product_id : Nat
  quantity : Int
deriving Repr, DecidableEq

/-- Cart row: a user id and its line items. -/
structure Cart where
  user_id : Nat
  items : List CartItem
deriving Repr, DecidableEq

/-- Relational store visible to the embedded services. -/
structure DB where
  inventories : List Inventory
  products : List Product
  carts : List Cart
  orders : List Order
  orderItems : List OrderItem
deriving Repr, DecidableEq

/-- Modelled from the spec: repositories.inventory_repository.get_by_product_id
is imported by the services but its file is not in the repository snapshot;
the spec describes it as the point lookup of the inventory row for a product
(locked for exclusive read for the duration of the unit of work). -/
def get_by_product_id (invs : List Inventory) (pid : Nat) : Option Inventory :=
  invs.find? (fun inv => inv.product_id == pid)

/-- Write back one inventory row: the ORM mutates the fetched row in place,
modelled by replacing every row with the same product_id. -/
def setInventory (invs : List Inventory) (inv : Inventory) : List Inventory :=
  invs.map (fun i => if i.product_id == inv.product_id then inv else i)

/-- Write back one order row, by id. -/
def setOrder (orders : List Order) (o : Order) : List Order :=
  orders.map (fun x => if x.id == o.id then o else x)

/-- Line items of one order (db.query(OrderItem).filter(order_id == ...)). -/
def itemsOfOrder (db : DB) (order_id : Nat) : List OrderItem :=
  db.orderItems.filter (fun it => it.order_id == order_id)

/-- Find an order row by id. -/
def findOrder (db : DB) (order_id : Nat) : Option Order :=
  db.orders.find? (fun o => o.id == order_id)

/-- reserve_stock (services/inventory_services.py lines 101 to 133): moves
stock from available to reserved; 404 when the inventory row is absent, 400
Insufficient stock when available_stock < quantity. -/
def reserve_stock (inv : Option Inventory) (quantity : Int) :
    Except HTTPExc Inventory :=
  match inv with
  | none => .error ⟨404, "Inventory not found"⟩
  | some inventory =>
    if inventory.available_stock < quantity then
      .error ⟨400, "Insufficient stock"⟩
    else
      .ok { inventory with
              available_stock := inventory.available_stock - quantity,
              reserved_stock := inventory.reserved_stock + quantity }

/-- Per-line body of finalize_stock (services/inventory_services.py lines
169 to 170): reserved_stock -= quantity; total_stock -= quantity. -/
def finalizeLine (inventory : Inventory) (quantity : Int) : Inventory :=
  { inventory with
      reserved_stock := inventory.reserved_stock - quantity,
      total_stock := inventory.total_stock - quantity }

/-- finalize_stock (services/inventory_services.py lines 139 to 179): for
every line item of the order deduct the reserved stock permanently; a
missing inventory row is logged and skipped. -/
def finalize_stock (db : DB) (order_id : Nat) : DB :=
  let step := fun (invs : List Inventory) (item : OrderItem) =>
    match get_by_product_id invs item.product_id with
    | none => invs
    | some inventory => setInventory invs (finalizeLine inventory item.quantity)
  { db with inventories := (itemsOfOrder db order_id).foldl step db.inventories }

/-- Per-line body of rollback_stock (services/inventory_services.py lines
244 to 262): clamped release of a reservation. When reserved_stock <
quantity the anomaly is clamped: restore only what is actually reserved. -/
def releaseClamped (inventory : Inventory) (quantity : Int) : Inventory :=
  if inventory.reserved_stock < quantity then
    if 0 < inventory.reserved_stock then
      { inventory with
          available_stock := inventory.available_stock + inventory.reserved_stock,
          reserved_stock := 0 }
    else inventory
  else
    { inventory with
        reserved_stock := inventory.reserved_stock - quantity,
        available_stock := inventory.available_stock + quantity }

/-- Release every line item of an order through the clamped release; a
missing inventory row is logged and skipped. -/
def rollbackItems (invs : List Inventory) : List OrderItem → List Inventory
  | [] => invs
  | item :: rest =>
    match get_by_product_id invs item.product_id with
    | none => rollbackItems invs rest
    | some inventory =>
      rollbackItems (setInventory invs (releaseClamped inventory item.quantity)) rest

/-- rollback_stock (services/inventory_services.py lines 185 to 274):
order-level rollback, idempotent through the persisted stock_rollback_done
flag; the flag is set even when the order has no line items; a missing
order is a logged no-op. -/
def rollback_stock (db : DB) (order_id : Nat) : DB :=
  match findOrder db order_id with
  | none => db
  | some order =>
    if order.stock_rollback_done then db
    else
      let items := itemsOfOrder db order_id
      if items.isEmpty then
        { db with orders := setOrder db.orders { order with stock_rollback_done := true } }
      else
        { db with
            inventories := rollbackItems db.inventories items,
            orders := setOrder db.orders { order with stock_rollback_done := true } }

/-- Per-line body of OrderService._rollback_inventory
(services/order_services.py lines 50 to 52): unclamped release,
available_stock += quantity; reserved_stock -= quantity. -/
def releaseLineUnclamped (inventory : Inventory) (quantity : Int) : Inventory :=
  { inventory with
      available_stock := inventory.available_stock + quantity,
      reserved_stock := inventory.reserved_stock - quantity }

/-- Inner loop of _rollback_inventory over the line items of the order; a
missing inventory row is skipped. -/
def releaseAllUnclamped (invs : List Inventory) : List OrderItem → List Inventory
  | [] => invs
  | item :: rest =>
    match get_by_product_id invs item.product_id with
    | none => releaseAllUnclamped invs rest
    | some inventory =>
      releaseAllUnclamped (setInventory invs (releaseLineUnclamped inventory item.quantity))
        rest

/-- OrderService._rollback_inventory (services/order_services.py lines 38
to 57): releases every line item without a clamp and without consulting the
stock_rollback_done flag, but only when the order status at call time is in
PENDING, CANCELLED or EXPIRED. -/
def _rollback_inventory (invs : List Inventory) (order_status : String)
    (items : List OrderItem) : List Inventory :=
  if order_status == "PENDING" || order_status == "CANCELLED"
      || order_status == "EXPIRED" then
    releaseAllUnclamped invs items
  else invs

/-- update_inventory (controllers/inventory_controller.py lines 49 to 68):
administrative total-stock adjustment, recomputing available_stock by the
delta between old and new total. -/
def update_inventory (inventory : Inventory) (new_total : Int) : Inventory :=
  { inventory with
      total_stock := new_total,
      available_stock := inventory.available_stock + (new_total - inventory.total_stock) }

/-- create_inventory_for_product (services/inventory_services.py lines 45
to 65): administrative provisioning, total = available = stock, reserved 0. -/
def create_inventory_for_product (product_id : Nat) (stock : Int) : Inventory :=
  ⟨product_id, stock, stock, 0⟩

/-- Round-half-up of a rational to an integer: ties away from zero, the
rounding Decimal.quantize performs under ROUND_HALF_UP. -/
def roundHalfUp (q : Rat) : Int :=
  if 0 ≤ q then (q + 1 / 2).floor else (-(-q + 1 / 2).floor)

/-- _quantize_money (services/order_services.py lines 27 to 28):
value.quantize(Decimal("0.01"), rounding=ROUND_HALF_UP). -/
def _quantize_money (value : Rat) : Rat :=
  (roundHalfUp (value * 100) : Rat) / 100

/-- ALLOWED_STATUSES (services/order_services.py lines 17 to 24). The set is
defined in the source but update_status never consults it. -/
def ALLOWED_STATUSES : List String :=
  ["PENDING", "PAID", "SHIPPED", "DELIVERED", "CANCELLED", "EXPIRED"]

/-- Find the active product with the given id (services/order_services.py
lines 97 to 101). -/
def findActiveProduct (products : List Product) (pid : Nat) : Option Product :=
  products.find? (fun p => p.id == pid && p.status == "active")

/-- The validity filter create_order_from_cart applies to cart lines
(services/order_services.py line 79): i.quantity and i.quantity > 0. -/
def validQty (i : CartItem) : Bool :=
  i.quantity != 0 && decide (0 < i.quantity)

/-- Reservation loop of create_order_from_cart (services/order_services.py
lines 96 to 134): for each valid cart line, look up the active product
(400 Product not available when absent), fetch the locked inventory row
(the source dereferences it without a none-check, so a missing row raises
AttributeError, surfaced as an opaque 500 and modelled as such), check and
reserve stock, snapshot price and name into an order line item, and
accumulate subtotal and item count. -/
def processCartItems (products : List Product) (order_id : Nat) :
    List Inventory → List CartItem →
    Except HTTPExc (List Inventory × List OrderItem × Rat × Int)
  | invs, [] => .ok (invs, [], 0, 0)
  | invs, cart_item :: rest =>
    match findActiveProduct products cart_item.product_id with
    | none => .error ⟨400, "Product not available"⟩
    | some product =>
      match get_by_product_id invs product.id with
      | none => .error ⟨500, "Internal Server Error"⟩
      | some inventory =>
        if inventory.available_stock < cart_item.quantity then
          .error ⟨400, "Insufficient stock"⟩
        else
          let inventory' := { inventory with
            available_stock := inventory.available_stock - cart_item.quantity,
            reserved_stock := inventory.reserved_stock + cart_item.quantity }
          let unit_price := _quantize_money product.price
          let line_total := _quantize_money (unit_price * cart_item.quantity)
          let item : OrderItem :=
            ⟨order_id, product.id, product.name, unit_price, cart_item.quantity, line_total⟩
          match processCartItems products order_id (setInventory invs inventory') rest with
          | .error e => .error e
          | .ok (invsF, items, sub, ti) =>
            .ok (invsF, item :: items, line_total + sub, cart_item.quantity + ti)

/-- OrderService.create_order_from_cart (services/order_services.py lines
62 to 151). next_order_id models the identifier the flush assigns to the
new order row. The cart lookup fails with 400 when the cart is absent, the
validity filter drops non-positive lines, the reservation loop processes
the remaining lines, totals are computed with _quantize_money, the consumed
valid cart lines are deleted, and the unit of work commits. -/
def create_order_from_cart (db : DB) (user_id : Nat)
    (shipping_address payment_method : Option String) (next_order_id : Nat) :
    Except HTTPExc (DB × Order) :=
  match db.carts.find? (fun c => c.user_id == user_id) with
  | none => .error ⟨400, "Cart not found or empty"⟩
  | some cart =>
    let valid_items := cart.items.filter validQty
    if valid_items.isEmpty then
      .error ⟨400, "Cart is empty or has no valid items"⟩
    else
      match processCartItems db.products next_order_id db.inventories valid_items with
      | .error e => .error e
      | .ok (invs, items, subtotal, total_items) =>
        let tax := _quantize_money (subtotal * (18 / 100))
        let order : Order :=
          { id := next_order_id
            user_id := user_id
            shipping_address := shipping_address
            payment_method := payment_method
            status := "PENDING"
            total_items := total_items
            subtotal := subtotal
            tax := tax
            discount := 0
            grand_total := _quantize_money (subtotal + tax)
            payment_status := none
            transaction_id := none
            amount_paid := none
            stock_rollback_done := false }
        let cart' := { cart with items := cart.items.filter (fun i => !(validQty i)) }
        .ok ({ db with
                inventories := invs
                carts := db.carts.map (fun c => if c.user_id == user_id then cart' else c)
                orders := db.orders ++ [order]
                orderItems := db.orderItems ++ items },
             order)

/-- OrderService.update_status (services/order_services.py lines 182 to
203): loads the order (404 when absent); when new_status is CANCELLED or
EXPIRED it runs _rollback_inventory (gated on the current order status);
then persists new_status unchecked. The source never consults
ALLOWED_STATUSES here. -/
def update_status (db : DB) (order_id : Nat) (new_status : String) :
    Except HTTPExc (DB × Order) :=
  match findOrder db order_id with
  | none => .error ⟨404, "Order not found"⟩
  | some order =>
    let invs :=
      if new_status == "CANCELLED" || new_status == "EXPIRED" then
        _rollback_inventory db.inventories order.status (itemsOfOrder db order_id)
      else db.inventories
    let order' := { order with status := new_status }
    .ok ({ db with inventories := invs, orders := setOrder db.orders order' }, order')

/-- Python str.upper on the status strings involved (all ASCII), modelled
as per-character uppercasing. -/
def strUpper (s : String) : String :=
  ⟨s.data.map Char.toUpper⟩

/-- OrderService.attach_payment (services/order_services.py lines 208 to
244): loads the order (404 when absent), records the payment metadata;
when payment_status upper-cased equals PAID it only sets status PAID (no
stock finalization happens in the source); otherwise it runs
_rollback_inventory on the current status and sets status CANCELLED. -/
def attach_payment (db : DB) (order_id : Nat) (transaction_id payment_method : String)
    (amount : Rat) (payment_status : String) : Except HTTPExc (DB × Order) :=
  match findOrder db order_id with
  | none => .error ⟨404, "Order not found"⟩
  | some order =>
    let order1 := { order with
      transaction_id := some transaction_id
      payment_method := some payment_method
      payment_status := some payment_status
      amount_paid := some (_quantize_money amount) }
    if strUpper payment_status == "PAID" then
      let order2 := { order1 with status := "PAID" }
      .ok ({ db with orders := setOrder db.orders order2 }, order2)
    else
      let invs := _rollback_inventory db.inventories order1.status (itemsOfOrder db order_id)
      let order2 := { order1 with status := "CANCELLED" }
      .ok ({ db with inventories := invs, orders := setOrder db.orders order2 }, order2)

/-- ALLOWED_STATUSES of the earlier draft (Services/order_services.py lines
14 to 21): a different set, with CONFIRMED and without EXPIRED. -/
def DRAFT_ALLOWED_STATUSES : List String :=
  ["PENDING", "CONFIRMED", "PAID", "SHIPPED", "DELIVERED", "CANCELLED"]

/-- Draft OrderService.update_status (Services/order_services.py lines 240
to 274): validates new_status against its own allowed set first (400 with
the offending status interpolated into the detail), then loads the order
(404 when absent) and persists the status; it runs no inventory rollback. -/
def draft_update_status (db : DB) (order_id : Nat) (new_status : String) :
    Except HTTPExc (DB × Order) :=
  if new_status ∈ DRAFT_ALLOWED_STATUSES then
    match findOrder db order_id with
    | none => .error ⟨404, "Order not found"⟩
    | some order =>
      let order' := { order with status := new_status }
      .ok ({ db with orders := setOrder db.orders order' }, order')
  else
    .error ⟨400, "Invalid order status " ++ new_status⟩

/-- Request boundary for a mutating endpoint: on success the unit of work
is committed (the new DB), on an exception the session is discarded without
commit, leaving the store as it was. -/
def commitOrSame (db : DB) (r : Except HTTPExc (DB × Order)) : DB :=
  match r with
  | .ok (db', _) => db'
  | .error _ => db

/-- Observable store after a create_order_from_cart request. -/
def runCreateOrder (db : DB) (user_id : Nat)
    (shipping_address payment_method : Option String) (next_order_id : Nat) : DB :=
  commitOrSame db (create_order_from_cart db user_id shipping_address payment_method
    next_order_id)

/-- Observable store after an update_status request. -/
def runUpdateStatus (db : DB) (order_id : Nat) (new_status : String) : DB :=
  commitOrSame db (update_status db order_id new_status)

/-- Observable store after an attach_payment request. -/
def runAttachPayment (db : DB) (order_id : Nat) (transaction_id payment_method : String)
    (amount : Rat) (payment_status : String) : DB :=
  commitOrSame db (attach_payment db order_id transaction_id payment_method amount
    payment_status)

/-- Status of an order after an update_status request, when it succeeds. -/
def updatedStatus (db : DB) (order_id : Nat) (new_status : String) : Option String :=
  (update_status db order_id new_status).toOption.map (fun p => p.2.status)

/-- Membership in a store after writing back one row: every row of the
updated store is the written row or one of the old rows. -/
theorem mem_setInventory {invs : List Inventory} {inv j : Inventory}
    (hj : j ∈ setInventory invs inv) : j = inv ∨ j ∈ invs := by
  unfold setInventory at hj
  rcases List.mem_map.1 hj with ⟨a, ha, heq⟩
  by_cases hc : (a.product_id == inv.product_id) = true
  · left; rw [← heq, if_pos hc]
  · right; rw [← heq, if_neg hc]; exact ha

/-- A row returned by the point lookup is a member of the store. -/
theorem mem_of_get_by_product_id {invs : List Inventory} {pid : Nat}
    {inv : Inventory} (h : get_by_product_id invs pid = some inv) : inv ∈ invs :=
  List.mem_of_find?_eq_some h

/-- The validity filter of create_order_from_cart accepts exactly the
positive quantities. -/
theorem validQty_iff (i : CartItem) : validQty i = true ↔ 0 < i.quantity := by
  simp only [validQty, Bool.and_eq_true, bne_iff_ne, ne_eq, decide_eq_true_eq]
  omega

/-- The reservation loop preserves the invariant on every row of the store
when every processed cart line has a positive quantity. -/
theorem processCartItems_invariant (products : List Product) (oid : Nat) :
    ∀ (cis : List CartItem) (invs : List Inventory)
      (r : List Inventory × List OrderItem × Rat × Int),
      processCartItems products oid invs cis = .ok r →
      (∀ i ∈ invs, Invariant i) → (∀ ci ∈ cis, 0 < ci.quantity) →
      ∀ i ∈ r.1, Invariant i := by
  intro cis
  induction cis with
  | nil =>
    intro invs r hok hinv _
    simp only [processCartItems] at hok
    cases hok
    exact hinv
  | cons ci rest ih =>
    intro invs r hok hinv hpos
    simp only [processCartItems] at hok
    split at hok
    · cases hok
    · rename_i product hp
      split at hok
      · cases hok
      · rename_i inventory hi
        split at hok
        · cases hok
        · rename_i hlt
          split at hok
          · cases hok
          · rename_i rr invsF items sub ti hrec
            cases hok
            have hqty : 0 < ci.quantity := hpos ci (List.mem_cons_self ci rest)
            have hmem := mem_of_get_by_product_id hi
            have hinv1 := hinv inventory hmem
            have hstep : ∀ i ∈ setInventory invs
                { inventory with
                    available_stock := inventory.available_stock - ci.quantity,
                    reserved_stock := inventory.reserved_stock + ci.quantity },
                Invariant i := by
              intro i hi2
              rcases mem_setInventory hi2 with heq | hold
              · subst heq
                rcases hinv1 with ⟨h1, h2, h3⟩
                refine ⟨?_, ?_, ?_⟩ <;> dsimp only <;> omega
              · exact hinv i hold
            have := ih _ _ hrec hstep
              (fun c hc => hpos c (List.mem_cons_of_mem ci hc))
            simpa using this

/-- C1 (amended): each core stock operation preserves the invariant under
the precondition of its intended call site: reserve for a nonnegative
quantity; the per-line finalize when the quantity does not exceed the
reserved stock; the clamped rollback release for any nonnegative quantity;
the unclamped status-update release when the quantity is between 0 and the
reserved stock; the administrative total adjustment when the new total is
at least total_stock minus available_stock; and create_order_from_cart
unconditionally. Outside these preconditions the operations can violate
the invariant. -/
theorem core_ops_preserve_invariant :
    (∀ (inv inv2 : Inventory) (qty : Int), Invariant inv → 0 ≤ qty →
        reserve_stock (some inv) qty = .ok inv2 → Invariant inv2) ∧
    (∀ (inv : Inventory) (qty : Int), Invariant inv → qty ≤ inv.reserved_stock →
        Invariant (finalizeLine inv qty)) ∧
    (∀ (inv : Inventory) (qty : Int), Invariant inv → 0 ≤ qty →
        Invariant (releaseClamped inv qty)) ∧
    (∀ (inv : Inventory) (qty : Int), Invariant inv → 0 ≤ qty →
        qty ≤ inv.reserved_stock → Invariant (releaseLineUnclamped inv qty)) ∧
    (∀ (inv : Inventory) (new_total : Int), Invariant inv →
        inv.total_stock - inv.available_stock ≤ new_total →
        Invariant (update_inventory inv new_total)) ∧
    (∀ (db : DB) (user_id nid : Nat) (sa pm : Option String) (db2 : DB) (o : Order),
        (∀ i ∈ db.inventories, Invariant i) →
        create_order_from_cart db user_id sa pm nid = .ok (db2, o) →
        ∀ i ∈ db2.inventories, Invariant i) := by
  refine ⟨?_, ?_, ?_, ?_, ?_, ?_⟩
  · intro inv inv2 qty hinv hqty hok
    simp only [reserve_stock] at hok
    by_cases hlt : inv.available_stock < qty
    · rw [if_pos hlt] at hok; cases hok
    · rw [if_neg hlt] at hok
      cases hok
      rcases hinv with ⟨h1, h2, h3⟩
      refine ⟨?_, ?_, ?_⟩ <;> dsimp only <;> omega
  · intro inv qty hinv hle
    rcases hinv with ⟨h1, h2, h3⟩
    refine ⟨?_, ?_, ?_⟩ <;> simp only [finalizeLine] <;> omega
  · intro inv qty hinv hqty
    rcases hinv with ⟨h1, h2, h3⟩
    unfold releaseClamped
    by_cases hlt : inv.reserved_stock < qty
    · rw [if_pos hlt]
      by_cases hpos : 0 < inv.reserved_stock
      · rw [if_pos hpos]
        refine ⟨?_, ?_, ?_⟩ <;> dsimp only <;> omega
      · rw [if_neg hpos]; exact ⟨h1, h2, h3⟩
    · rw [if_neg hlt]
      refine ⟨?_, ?_, ?_⟩ <;> dsimp only <;> omega
  · intro inv qty hinv h0 hle
    rcases hinv with ⟨h1, h2, h3⟩
    refine ⟨?_, ?_, ?_⟩ <;> simp only [releaseLineUnclamped] <;> omega
  · intro inv new_total hinv hge
    rcases hinv with ⟨h1, h2, h3⟩
    refine ⟨?_, ?_, ?_⟩ <;> simp only [update_inventory] <;> omega
  · intro db user_id nid sa pm db2 o hinv hok
    simp only [create_order_from_cart] at hok
    split at hok
    · cases hok
    · rename_i cart hc
      split at hok
      · cases hok
      · split at hok
        · cases hok
        · rename_i r invs items subtotal total_items hr
          have hvalid : ∀ ci ∈ cart.items.filter validQty, 0 < ci.quantity := by
            intro ci hci
            exact (validQty_iff ci).1 (List.of_mem_filter hci)
          have hall := processCartItems_invariant db.products nid _ _ _ hr hinv hvalid
          cases hok
          simpa using hall

/-- Closed instance of the C1 theorem: reserving 3 units out of an
inventory of 10 available preserves the invariant. -/
theorem core_ops_preserve_invariant_witness :
    Invariant (⟨1, 10, 10, 0⟩ : Inventory) ∧ (0 : Int) ≤ 3 ∧
      reserve_stock (some ⟨1, 10, 10, 0⟩) 3 = .ok ⟨1, 10, 7, 3⟩ ∧
      Invariant (⟨1, 10, 7, 3⟩ : Inventory) :=
  ⟨by decide, by decide, by decide,
    core_ops_preserve_invariant.1 ⟨1, 10, 10, 0⟩ ⟨1, 10, 7, 3⟩ 3
      (by decide) (by decide) (by decide)⟩

/-- C1 counterexample: the administrative total adjustment, applied to a
state satisfying the invariant, can violate it: lowering the total of an
inventory with 0 available and 10 reserved to 5 leaves available_stock at
minus 5. -/
theorem core_ops_preserve_invariant_cex :
    Invariant (⟨1, 10, 0, 10⟩ : Inventory) ∧
      update_inventory ⟨1, 10, 0, 10⟩ 5 = ⟨1, 5, -5, 10⟩ ∧
      ¬ Invariant (⟨1, 5, -5, 10⟩ : Inventory) := by decide

/-- C4 (amended): the clamped release of the rollback_stock path never
drives reserved_stock negative and clamps as specified; but this holds
only on that path, not on the unclamped _rollback_inventory path. -/
theorem releaseClamped_never_negative (inv : Inventory) (qty : Int)
    (hres : 0 ≤ inv.reserved_stock) :
    0 ≤ (releaseClamped inv qty).reserved_stock ∧
    (releaseClamped inv qty).total_stock = inv.total_stock ∧
    (inv.reserved_stock < qty →
      (releaseClamped inv qty).reserved_stock = 0 ∧
      (releaseClamped inv qty).available_stock =
        inv.available_stock + inv.reserved_stock) := by
  unfold releaseClamped
  by_cases hlt : inv.reserved_stock < qty
  · rw [if_pos hlt]
    by_cases hpos : 0 < inv.reserved_stock
    · rw [if_pos hpos]
      refine ⟨by simp, by simp, fun _ => ⟨by simp, by simp⟩⟩
    · rw [if_neg hpos]
      refine ⟨hres, rfl, fun _ => ⟨by omega, by omega⟩⟩
  · rw [if_neg hlt]
    refine ⟨by simpa using by omega, by simp, fun h => absurd h hlt⟩

/-- Closed instance of the C4 theorem: releasing 5 units when only 3 are
reserved clamps to reserved_stock 0 and credits exactly 3 to available. -/
theorem releaseClamped_never_negative_witness :
    (0 : Int) ≤ 3 ∧ releaseClamped ⟨1, 10, 7, 3⟩ 5 = ⟨1, 10, 10, 0⟩ ∧
      (0 : Int) ≤ (releaseClamped ⟨1, 10, 7, 3⟩ 5).reserved_stock :=
  ⟨by decide, by decide, (releaseClamped_never_negative ⟨1, 10, 7, 3⟩ 5 (by decide)).1⟩

/-- Order used by the C4 counterexample: a PENDING order with one 3-unit
line item. -/
def orderC4 : Order :=
  ⟨1, 1, none, none, "PENDING", 3, 300, 54, 0, 354, none, none, none, false⟩

/-- Store used by the C4 counterexample: the inventory row has nothing
reserved while order 1 still has a 3-unit line item. -/
def dbC4 : DB :=
  { inventories := [⟨1, 10, 10, 0⟩]
    products := []
    carts := []
    orders := [orderC4]
    orderItems := [⟨1, 1, "widget", 100, 3, 300⟩] }

/-- C4 counterexample: the release path reached through a CANCELLED status
update (OrderService._rollback_inventory) has no clamp: with nothing
reserved it drives reserved_stock to minus 3. -/
theorem release_path_goes_negative_cex :
    (runUpdateStatus dbC4 1 "CANCELLED").inventories = [⟨1, 10, 13, -3⟩] ∧
      ¬ (0 : Int) ≤ (-3 : Int) := by decide

/-- C10: the ledger reserve operation performs no positivity check: for an
existing inventory with nonnegative available stock and any quantity at
most 0, the guard cannot fire, so reserve succeeds and applies
available_stock -= qty and reserved_stock += qty. -/
theorem reserve_no_positivity_check (inv : Inventory) (qty : Int)
    (havail : 0 ≤ inv.available_stock) (hqty : qty ≤ 0) :
    reserve_stock (some inv) qty =
      .ok { inv with available_stock := inv.available_stock - qty,
                     reserved_stock := inv.reserved_stock + qty } := by
  simp only [reserve_stock]
  rw [if_neg (by omega)]

/-- Closed instance of the C10 theorem: reserving minus 3 units succeeds,
raises available_stock to 13 and drives reserved_stock to minus 3. -/
theorem reserve_no_positivity_check_witness :
    (0 : Int) ≤ 10 ∧ (-3 : Int) ≤ 0 ∧
      reserve_stock (some ⟨1, 10, 10, 0⟩) (-3) = .ok ⟨1, 10, 13, -3⟩ ∧
      (-3 : Int) < 0 :=
  ⟨by decide, by decide,
    reserve_no_positivity_check ⟨1, 10, 10, 0⟩ (-3) (by decide) (by decide),
    by decide⟩

/-- Status of an order after an attach_payment request, when it succeeds. -/
def attachedStatus (db : DB) (order_id : Nat) (transaction_id payment_method : String)
    (amount : Rat) (payment_status : String) : Option String :=
  (attach_payment db order_id transaction_id payment_method amount
    payment_status).toOption.map (fun p => p.2.status)

/-- Looking an order up after writing back a row with the same id finds the
written row. -/
theorem findOrder_setOrder (orders : List Order) (oid : Nat) (order o2 : Order)
    (h : orders.find? (fun o => o.id == oid) = some order) (hid : o2.id = order.id) :
    (setOrder orders o2).find? (fun o => o.id == oid) = some o2 := by
  have hoid : order.id = oid := by simpa using List.find?_some h
  have ho2 : o2.id = oid := by rw [hid, hoid]
  unfold setOrder
  rw [List.find?_map]
  have hpf : ((fun o : Order => o.id == oid) ∘
      fun x : Order => if x.id == o2.id then o2 else x) =
      (fun o : Order => o.id == oid) := by
    funext x
    by_cases hx : x.id = oid
    · simp [Function.comp, hx, ho2]
    · simp [Function.comp, hx, ho2]
  rw [hpf, h]
  simp [hoid, ho2]

/-- After rollback_stock runs on an existing order, the persisted order row
carries stock_rollback_done = true (also when the order has no line items,
and also when the flag was already set). -/
theorem findOrder_rollback_flag (db : DB) (oid : Nat) (order : Order)
    (h : findOrder db oid = some order) :
    findOrder (rollback_stock db oid) oid =
      some { order with stock_rollback_done := true } := by
  cases hflag : order.stock_rollback_done with
  | true =>
    have hsame : rollback_stock db oid = db := by
      simp only [rollback_stock, h, hflag, if_true]
    rw [hsame, h]
    cases order with
    | mk id uid sa pm st ti sub tax disc gt ps tx ap flag =>
      simp only at hflag
      simp [hflag]
  | false =>
    simp only [rollback_stock, h, hflag, Bool.false_eq_true, if_false]
    by_cases hempty : (itemsOfOrder db oid).isEmpty
    · rw [if_pos hempty]
      exact findOrder_setOrder db.orders oid order _ h rfl
    · rw [if_neg hempty]
      exact findOrder_setOrder db.orders oid order _ h rfl

/-- C3 (amended): the order-level rollback_stock is idempotent — the second
call is a no-op because the persisted stock_rollback_done flag
short-circuits it, and the flag is set even when the order has zero line
items. The cancellation and expiry status-update path of
OrderService.update_status, however, releases stock through
_rollback_inventory, which neither consults nor sets the flag, so repeating
that status update is not a ledger no-op. -/
theorem rollback_stock_idempotent :
    (∀ (db : DB) (oid : Nat),
        rollback_stock (rollback_stock db oid) oid = rollback_stock db oid) ∧
    (∀ (db : DB) (oid : Nat) (order : Order), findOrder db oid = some order →
        findOrder (rollback_stock db oid) oid =
          some { order with stock_rollback_done := true }) := by
  constructor
  · intro db oid
    cases h : findOrder db oid with
    | none =>
      have hsame : rollback_stock db oid = db := by
        simp only [rollback_stock, h]
      rw [hsame, hsame]
    | some order =>
      have h2 := findOrder_rollback_flag db oid order h
      set db1 := rollback_stock db oid with hdb1
      simp only [rollback_stock, h2]
      simp
  · intro db oid order h
    exact findOrder_rollback_flag db oid order h

/-- Order used by the C3 scenario: the PENDING order of Scenario A with its
3-unit line item reserved. -/
def orderC3 : Order :=
  ⟨1, 1, none, none, "PENDING", 3, 300, 54, 0, 354, none, none, none, false⟩

/-- Store used by the C3 scenario: inventory 10 total, 7 available,
3 reserved against order 1. -/
def dbC3 : DB :=
  { inventories := [⟨1, 10, 7, 3⟩]
    products := []
    carts := []
    orders := [orderC3]
    orderItems := [⟨1, 1, "widget", 100, 3, 300⟩] }

/-- Closed instance of the C3 theorem: rollback_stock on the Scenario A
store is idempotent and sets the flag on the persisted order. -/
theorem rollback_stock_idempotent_witness :
    rollback_stock (rollback_stock dbC3 1) 1 = rollback_stock dbC3 1 ∧
      findOrder dbC3 1 = some orderC3 ∧
      findOrder (rollback_stock dbC3 1) 1 =
        some ⟨1, 1, none, none, "PENDING", 3, 300, 54, 0, 354, none, none, none, true⟩ :=
  ⟨rollback_stock_idempotent.1 dbC3 1, by decide,
    rollback_stock_idempotent.2 dbC3 1 orderC3 (by decide)⟩

/-- C3 counterexample: repeating a CANCELLED status update is not a ledger
no-op — the first cancellation restores the inventory to 10 available and
0 reserved, the second releases the same 3 units again, driving
reserved_stock to minus 3. -/
theorem repeated_cancellation_not_noop_cex :
    (runUpdateStatus dbC3 1 "CANCELLED").inventories = [⟨1, 10, 10, 0⟩] ∧
      (runUpdateStatus (runUpdateStatus dbC3 1 "CANCELLED") 1 "CANCELLED").inventories =
        [⟨1, 10, 13, -3⟩] ∧
      runUpdateStatus (runUpdateStatus dbC3 1 "CANCELLED") 1 "CANCELLED" ≠
        runUpdateStatus dbC3 1 "CANCELLED" := by decide

/-- C5 (amended): attach_payment with payment_status case-insensitively
equal to PAID sets the order status to PAID and records the payment
metadata, but performs no stock finalization — the inventories are
unchanged and finalize_stock is never invoked; with any other
payment_status it runs the _rollback_inventory path (gated on the current
order status) and sets the status to CANCELLED. -/
theorem attach_payment_no_finalize :
    (∀ (db : DB) (oid : Nat) (tx pm : String) (amt : Rat) (ps : String) (order : Order),
        findOrder db oid = some order → strUpper ps = "PAID" →
        attachedStatus db oid tx pm amt ps = some "PAID" ∧
          (runAttachPayment db oid tx pm amt ps).inventories = db.inventories) ∧
    (∀ (db : DB) (oid : Nat) (tx pm : String) (amt : Rat) (ps : String) (order : Order),
        findOrder db oid = some order → ¬ strUpper ps = "PAID" →
        attachedStatus db oid tx pm amt ps = some "CANCELLED" ∧
          (runAttachPayment db oid tx pm amt ps).inventories =
            _rollback_inventory db.inventories order.status (itemsOfOrder db oid)) := by
  constructor
  · intro db oid tx pm amt ps order h hps
    have hbeq : (strUpper ps == "PAID") = true := by simp [hps]
    constructor
    · simp only [attachedStatus, attach_payment, h, hbeq, if_true]
      rfl
    · simp only [runAttachPayment, commitOrSame, attach_payment, h, hbeq, if_true]
  · intro db oid tx pm amt ps order h hps
    have hbeq : (strUpper ps == "PAID") = false := by simp [hps]
    constructor
    · simp only [attachedStatus, attach_payment, h, hbeq, Bool.false_eq_true, if_false]
      rfl
    · simp only [runAttachPayment, commitOrSame, attach_payment, h, hbeq,
        Bool.false_eq_true, if_false]

/-- Order used by the C5 scenario (Scenario C): the PENDING order of
Scenario A. -/
def orderC5 : Order :=
  ⟨1, 1, none, none, "PENDING", 3, 300, 54, 0, 354, none, none, none, false⟩

/-- Store used by the C5 scenario: Scenario A state, 3 units reserved. -/
def dbC5 : DB :=
  { inventories := [⟨1, 10, 7, 3⟩]
    products := []
    carts := []
    orders := [orderC5]
    orderItems := [⟨1, 1, "widget", 100, 3, 300⟩] }

/-- Closed instance of the C5 theorem, at a PAID and at a FAILED payment
attachment on the Scenario C store. -/
theorem attach_payment_no_finalize_witness :
    findOrder dbC5 1 = some orderC5 ∧
      attachedStatus dbC5 1 "tx1" "card" 354 "paid" = some "PAID" ∧
      (runAttachPayment dbC5 1 "tx1" "card" 354 "paid").inventories = dbC5.inventories ∧
      attachedStatus dbC5 1 "tx2" "card" 354 "FAILED" = some "CANCELLED" :=
  ⟨by decide,
    (attach_payment_no_finalize.1 dbC5 1 "tx1" "card" 354 "paid" orderC5
      (by decide) (by decide)).1,
    (attach_payment_no_finalize.1 dbC5 1 "tx1" "card" 354 "paid" orderC5
      (by decide) (by decide)).2,
    (attach_payment_no_finalize.2 dbC5 1 "tx2" "card" 354 "FAILED" orderC5
      (by decide) (by decide)).1⟩

/-- C5 counterexample: on the Scenario C store a PAID attachment leaves the
inventory at 10 total, 7 available, 3 reserved — not at the 7 total, 7
available, 0 reserved the claim states — because attach_payment never
finalizes stock. -/
theorem attach_payment_scenario_cex :
    (runAttachPayment dbC5 1 "tx1" "card" 354 "PAID").inventories = [⟨1, 10, 7, 3⟩] ∧
      [(⟨1, 10, 7, 3⟩ : Inventory)] ≠ [(⟨1, 7, 7, 0⟩ : Inventory)] ∧
      attachedStatus dbC5 1 "tx1" "card" 354 "PAID" = some "PAID" := by decide

/-- C9 (amended): OrderService.update_status performs no status validation
at all — ALLOWED_STATUSES is defined in the module but never consulted, so
any string is persisted as the order status; it does fail with 404 when
the order does not exist. The earlier draft OrderService validates against
its own set, which contains CONFIRMED and lacks EXPIRED, and rejects
everything else with a 400 before touching the store. -/
theorem update_status_no_validation :
    (∀ (db : DB) (oid : Nat) (s : String), findOrder db oid = none →
        update_status db oid s = .error ⟨404, "Order not found"⟩) ∧
    (∀ (db : DB) (oid : Nat) (s : String) (order : Order),
        findOrder db oid = some order → updatedStatus db oid s = some s) ∧
    (∀ (db : DB) (oid : Nat) (s : String), s ∉ DRAFT_ALLOWED_STATUSES →
        draft_update_status db oid s = .error ⟨400, "Invalid order status " ++ s⟩) := by
  refine ⟨?_, ?_, ?_⟩
  · intro db oid s h
    simp only [update_status, h]
  · intro db oid s order h
    simp only [updatedStatus, update_status, h]
    rfl
  · intro db oid s h
    simp only [draft_update_status, if_neg h]

/-- Order used by the C9 scenario. -/
def orderC9 : Order :=
  ⟨1, 1, none, none, "PENDING", 0, 0, 0, 0, 0, none, none, none, false⟩

/-- Store used by the C9 scenario. -/
def dbC9 : DB :=
  { inventories := [], products := [], carts := [], orders := [orderC9], orderItems := [] }

/-- Empty store used by the C9 witness. -/
def dbEmpty : DB :=
  { inventories := [], products := [], carts := [], orders := [], orderItems := [] }

/-- Closed instance of the C9 theorem: a missing order gives 404, an
existing order accepts any string, and the draft rejects EXPIRED — a value
the claim lists as recognized. -/
theorem update_status_no_validation_witness :
    findOrder dbEmpty 1 = none ∧
      update_status dbEmpty 1 "PAID" = .error ⟨404, "Order not found"⟩ ∧
      findOrder dbC9 1 = some orderC9 ∧
      updatedStatus dbC9 1 "SHIPPED" = some "SHIPPED" ∧
      draft_update_status dbEmpty 1 "EXPIRED" =
        .error ⟨400, "Invalid order status EXPIRED"⟩ :=
  ⟨by decide,
    update_status_no_validation.1 dbEmpty 1 "PAID" (by decide),
    by decide,
    update_status_no_validation.2.1 dbC9 1 "SHIPPED" orderC9 (by decide),
    update_status_no_validation.2.2 dbEmpty 1 "EXPIRED" (by decide)⟩

/-- C9 counterexample: update_status persists the unrecognized status
BOGUS instead of failing with InvalidStatus. -/
theorem update_status_accepts_unrecognized_cex :
    updatedStatus dbC9 1 "BOGUS" = some "BOGUS" ∧
      "BOGUS" ∉ ALLOWED_STATUSES := by decide

/-- Success flag of one reservation outcome. -/
def isOkB : Except HTTPExc Inventory → Bool
  | .ok _ => true
  | .error _ => false

/-- Serialized execution of a batch of reservation attempts against one
inventory row. The row-level lock (select for update) taken by
reserve_stock and by the reservation step of create_order_from_cart
serializes concurrent attempts, so a concurrent run is some
lock-acquisition order, and each attempt observes the counters left by the
previous one; a failed attempt raises and leaves the row unchanged. The
result lists each outcome in lock-acquisition order plus the final row. -/
def runReservations (inv : Inventory) :
    List Int → List (Except HTTPExc Inventory) × Inventory
  | [] => ([], inv)
  | q :: qs =>
    match reserve_stock (some inv) q with
    | .error e =>
      let r := runReservations inv qs
      (.error e :: r.1, r.2)
    | .ok inv2 =>
      let r := runReservations inv2 qs
      (.ok inv2 :: r.1, r.2)

/-- Greedy fit specification: a request succeeds exactly when it fits in
the availability left by the earlier successes, in order. -/
def greedySpec (avail : Int) : List Int → List Bool × Int
  | [] => ([], avail)
  | q :: qs =>
    if q ≤ avail then
      let r := greedySpec (avail - q) qs
      (true :: r.1, r.2)
    else
      let r := greedySpec avail qs
      (false :: r.1, r.2)

/-- The greedy fit never drives the availability below zero. -/
theorem greedySpec_nonneg :
    ∀ (qs : List Int) (avail : Int), 0 ≤ avail → 0 ≤ (greedySpec avail qs).2 := by
  intro qs
  induction qs with
  | nil => intro avail h; simpa [greedySpec] using h
  | cons q qs ih =>
    intro avail h
    simp only [greedySpec]
    by_cases hq : q ≤ avail
    · rw [if_pos hq]
      exact ih (avail - q) (by omega)
    · rw [if_neg hq]
      exact ih avail h

/-- The serialized run of reservations equals the greedy fit: each outcome
succeeds exactly when the greedy specification says it fits, every failure
is the 400 Insufficient stock error, the final availability is the greedy
remainder, and the run conserves available plus reserved and leaves the
total untouched. -/
theorem runReservations_spec :
    ∀ (qs : List Int) (inv : Inventory),
      ((runReservations inv qs).1.map isOkB = (greedySpec inv.available_stock qs).1) ∧
      (∀ e, .error e ∈ (runReservations inv qs).1 → e = ⟨400, "Insufficient stock"⟩) ∧
      ((runReservations inv qs).2.available_stock =
        (greedySpec inv.available_stock qs).2) ∧
      ((runReservations inv qs).2.available_stock +
          (runReservations inv qs).2.reserved_stock =
        inv.available_stock + inv.reserved_stock) ∧
      ((runReservations inv qs).2.total_stock = inv.total_stock) := by
  intro qs
  induction qs with
  | nil =>
    intro inv
    refine ⟨rfl, ?_, rfl, rfl, rfl⟩
    intro e he
    simp [runReservations] at he
  | cons q qs ih =>
    intro inv
    simp only [runReservations, reserve_stock]
    by_cases hlt : inv.available_stock < q
    · rw [if_pos hlt]
      dsimp only
      obtain ⟨ih1, ih2, ih3, ih4, ih5⟩ := ih inv
      refine ⟨?_, ?_, ?_, ih4, ih5⟩
      · simp only [greedySpec, List.map_cons, isOkB]
        rw [if_neg (by omega)]
        rw [ih1]
      · intro e he
        rcases List.mem_cons.1 he with h | h
        · cases h; rfl
        · exact ih2 e h
      · simp only [greedySpec]
        rw [if_neg (by omega)]
        exact ih3
    · rw [if_neg hlt]
      dsimp only
      obtain ⟨ih1, ih2, ih3, ih4, ih5⟩ :=
        ih { inv with available_stock := inv.available_stock - q,
                      reserved_stock := inv.reserved_stock + q }
      refine ⟨?_, ?_, ?_, ?_, ?_⟩
      · simp only [greedySpec, List.map_cons, isOkB]
        rw [if_pos (by omega)]
        rw [ih1]
      · intro e he
        rcases List.mem_cons.1 he with h | h
        · cases h
        · exact ih2 e h
      · simp only [greedySpec]
        rw [if_pos (by omega)]
        exact ih3
      · rw [ih4]; dsimp only; omega
      · rw [ih5]

/-- C2: concurrent reservation attempts on one product serialize on the
inventory row lock; executed in lock-acquisition order against a row with
nonnegative availability, exactly the attempts that fit the remaining
availability succeed, every other attempt fails with the 400 Insufficient
stock error, and the final availability — the starting availability minus
the successful quantities — never goes below zero, so the product is never
oversold. -/
theorem concurrent_reservations_never_oversell (inv : Inventory) (qs : List Int)
    (h0 : 0 ≤ inv.available_stock) :
    ((runReservations inv qs).1.map isOkB = (greedySpec inv.available_stock qs).1) ∧
    (∀ e, .error e ∈ (runReservations inv qs).1 → e = ⟨400, "Insufficient stock"⟩) ∧
    ((runReservations inv qs).2.available_stock =
      (greedySpec inv.available_stock qs).2) ∧
    0 ≤ (runReservations inv qs).2.available_stock ∧
    ((runReservations inv qs).2.available_stock +
        (runReservations inv qs).2.reserved_stock =
      inv.available_stock + inv.reserved_stock) ∧
    ((runReservations inv qs).2.total_stock = inv.total_stock) := by
  obtain ⟨h1, h2, h3, h4, h5⟩ := runReservations_spec qs inv
  refine ⟨h1, h2, h3, ?_, h4, h5⟩
  rw [h3]
  exact greedySpec_nonneg qs inv.available_stock h0

/-- Closed instance of the C2 theorem: three concurrent requests for 6, 6
and 5 units against 10 available serialize to one success and two
Insufficient stock failures, leaving 4 available — no overselling. -/
theorem concurrent_reservations_never_oversell_witness :
    (0 : Int) ≤ 10 ∧
      (runReservations ⟨1, 10, 10, 0⟩ [6, 6, 5]).1.map isOkB = [true, false, false] ∧
      (runReservations ⟨1, 10, 10, 0⟩ [6, 6, 5]).2 = ⟨1, 10, 4, 6⟩ ∧
      0 ≤ (runReservations ⟨1, 10, 10, 0⟩ [6, 6, 5]).2.available_stock :=
  ⟨by decide, by decide, by decide,
    (concurrent_reservations_never_oversell ⟨1, 10, 10, 0⟩ [6, 6, 5]
      (by decide)).2.2.2.1⟩

/-- Store used by the C6 scenario (Scenario B): inventory 10 available, an
active product, and a cart asking for 15 units. -/
def dbB : DB :=
  { inventories := [⟨1, 10, 10, 0⟩]
    products := [⟨1, "widget", 100, "active"⟩]
    carts := [⟨1, [⟨1, 15⟩]⟩]
    orders := []
    orderItems := [] }

/-- C6: create_order_from_cart is atomic on failure — when any step fails
the unit of work is discarded without commit, so the observable store is
exactly the starting store (no order row, no inventory change, no deleted
cart line) and the original error is surfaced unchanged; in particular
Scenario B (a 15-unit cart against 10 available) fails with the 400
Insufficient stock error and leaves the store untouched. -/
theorem create_order_atomic_on_failure (db : DB) (user_id nid : Nat)
    (sa pm : Option String) (e : HTTPExc)
    (h : create_order_from_cart db user_id sa pm nid = .error e) :
    runCreateOrder db user_id sa pm nid = db ∧
      create_order_from_cart dbB 1 none none 1 = .error ⟨400, "Insufficient stock"⟩ ∧
      runCreateOrder dbB 1 none none 1 = dbB := by
  refine ⟨?_, by decide, by decide⟩
  simp only [runCreateOrder, commitOrSame, h]

/-- Closed instance of the C6 theorem, at the Scenario B store. -/
theorem create_order_atomic_on_failure_witness :
    create_order_from_cart dbB 1 none none 1 = .error ⟨400, "Insufficient stock"⟩ ∧
      runCreateOrder dbB 1 none none 1 = dbB :=
  ⟨by decide,
    (create_order_atomic_on_failure dbB 1 1 none none ⟨400, "Insufficient stock"⟩
      (by decide)).1⟩

/-- The reservation loop only emits order line items with the quantities of
the processed cart lines, so positive inputs give positive items. -/
theorem processCartItems_items_pos (products : List Product) (oid : Nat) :
    ∀ (cis : List CartItem) (invs : List Inventory)
      (r : List Inventory × List OrderItem × Rat × Int),
      processCartItems products oid invs cis = .ok r →
      (∀ ci ∈ cis, 0 < ci.quantity) → ∀ it ∈ r.2.1, 0 < it.quantity := by
  intro cis
  induction cis with
  | nil =>
    intro invs r hok _
    simp only [processCartItems] at hok
    cases hok
    intro it hit
    simp at hit
  | cons ci rest ih =>
    intro invs r hok hpos
    simp only [processCartItems] at hok
    split at hok
    · cases hok
    · split at hok
      · cases hok
      · split at hok
        · cases hok
        · split at hok
          · cases hok
          · rename_i rr invsF items sub ti hrec
            cases hok
            intro it hit
            rcases List.mem_cons.1 hit with h | h
            · cases h
              exact hpos ci (List.mem_cons_self ci rest)
            · exact ih _ _ hrec
                (fun c hc => hpos c (List.mem_cons_of_mem ci hc)) it h

/-- C7: create_order_from_cart fails with the empty-cart error when the
cart is absent or when no line survives the positivity filter; and on
success every order line item it creates has a positive quantity, because
non-positive cart lines are never converted. -/
theorem create_order_empty_cart (db : DB) (user_id nid : Nat)
    (sa pm : Option String) :
    (db.carts.find? (fun c => c.user_id == user_id) = none →
      create_order_from_cart db user_id sa pm nid =
        .error ⟨400, "Cart not found or empty"⟩) ∧
    (∀ cart, db.carts.find? (fun c => c.user_id == user_id) = some cart →
      cart.items.filter validQty = [] →
      create_order_from_cart db user_id sa pm nid =
        .error ⟨400, "Cart is empty or has no valid items"⟩) ∧
    (∀ (db2 : DB) (o : Order),
      create_order_from_cart db user_id sa pm nid = .ok (db2, o) →
      ∃ newItems, db2.orderItems = db.orderItems ++ newItems ∧
        ∀ it ∈ newItems, 0 < it.quantity) := by
  refine ⟨?_, ?_, ?_⟩
  · intro h
    simp only [create_order_from_cart, h]
  · intro cart hc hfilter
    simp only [create_order_from_cart, hc, hfilter]
    rfl
  · intro db2 o hok
    simp only [create_order_from_cart] at hok
    split at hok
    · cases hok
    · rename_i cart hc
      split at hok
      · cases hok
      · split at hok
        · cases hok
        · rename_i r invs items subtotal total_items hr
          have hvalid : ∀ ci ∈ cart.items.filter validQty, 0 < ci.quantity := by
            intro ci hci
            exact (validQty_iff ci).1 (List.of_mem_filter hci)
          have hpos := processCartItems_items_pos db.products nid _ _ _ hr hvalid
          cases hok
          exact ⟨items, rfl, by simpa using hpos⟩

/-- Store used by the C7 witness: the cart of user 1 holds only a
zero-quantity line and a negative-quantity line. -/
def dbC7 : DB :=
  { inventories := [⟨1, 10, 10, 0⟩]
    products := [⟨1, "widget", 100, "active"⟩]
    carts := [⟨1, [⟨1, 0⟩, ⟨1, -2⟩]⟩]
    orders := []
    orderItems := [] }

/-- Closed instance of the C7 theorem: a missing cart gives the
cart-not-found error, and a cart with only non-positive lines gives the
empty-cart error. -/
theorem create_order_empty_cart_witness :
    create_order_from_cart dbEmpty 1 none none 1 =
        .error ⟨400, "Cart not found or empty"⟩ ∧
      create_order_from_cart dbC7 1 none none 1 =
        .error ⟨400, "Cart is empty or has no valid items"⟩ :=
  ⟨(create_order_empty_cart dbEmpty 1 1 none none).1 (by decide),
    (create_order_empty_cart dbC7 1 1 none none).2.1 ⟨1, [⟨1, 0⟩, ⟨1, -2⟩]⟩
      (by decide) (by decide)⟩

/-- The created order of a successful create_order_from_cart request. -/
def createdOrder (db : DB) (user_id : Nat) (sa pm : Option String) (nid : Nat) :
    Option Order :=
  (create_order_from_cart db user_id sa pm nid).toOption.map (fun p => p.2)

/-- The executable rational floor agrees with the mathematical floor. -/
theorem ratFloor_eq_intFloor (q : Rat) : q.floor = ⌊q⌋ := by
  rw [Rat.floor_def', Rat.floor_def]

/-- One half floors to zero. -/
theorem floor_one_half : ⌊(1 : Rat) / 2⌋ = 0 := by
  rw [Int.floor_eq_zero_iff]
  constructor <;> norm_num

/-- Round-half-up fixes the integers. -/
theorem roundHalfUp_intCast (n : Int) : roundHalfUp (n : Rat) = n := by
  unfold roundHalfUp
  by_cases hn : (0 : Rat) ≤ (n : Rat)
  · rw [if_pos hn, ratFloor_eq_intFloor]
    have h1 : ((n : Rat) + 1 / 2) = (1 / 2 + (n : Rat)) := by ring
    rw [h1, Int.floor_add_int, floor_one_half]
    omega
  · rw [if_neg hn, ratFloor_eq_intFloor]
    have h1 : (-(n : Rat) + 1 / 2) = (1 / 2 + ((-n : Int) : Rat)) := by push_cast; ring
    rw [h1, Int.floor_add_int, floor_one_half]
    omega

/-- On nonnegative arguments, round-half-up commutes with adding a
nonnegative integer. -/
theorem roundHalfUp_nonneg_add_int (q : Rat) (hq : 0 ≤ q) (n : Int) (hn : 0 ≤ n) :
    roundHalfUp (q + (n : Rat)) = roundHalfUp q + n := by
  unfold roundHalfUp
  have hqn : (0 : Rat) ≤ q + (n : Rat) := add_nonneg hq (by exact_mod_cast hn)
  rw [if_pos hqn, if_pos hq, ratFloor_eq_intFloor, ratFloor_eq_intFloor]
  have h1 : (q + (n : Rat) + 1 / 2) = (q + 1 / 2 + (n : Rat)) := by ring
  rw [h1, Int.floor_add_int]

/-- A rational is a whole number of cents. -/
def IsCents (q : Rat) : Prop := ∃ n : Int, q = (n : Rat) / 100

/-- Quantized money is a whole number of cents. -/
theorem IsCents_quantize (v : Rat) : IsCents (_quantize_money v) :=
  ⟨roundHalfUp (v * 100), rfl⟩

/-- Zero is a whole number of cents. -/
theorem IsCents_zero : IsCents 0 := ⟨0, by norm_num⟩

/-- Cent amounts are closed under addition. -/
theorem IsCents.add {a b : Rat} (ha : IsCents a) (hb : IsCents b) :
    IsCents (a + b) := by
  rcases ha with ⟨m, rfl⟩
  rcases hb with ⟨n, rfl⟩
  exact ⟨m + n, by push_cast; ring⟩

/-- Quantization is the identity on whole cent amounts. -/
theorem quantize_cents_id {q : Rat} (h : IsCents q) : _quantize_money q = q := by
  rcases h with ⟨n, rfl⟩
  unfold _quantize_money
  have h1 : ((n : Rat) / 100 * 100) = (n : Rat) := by field_simp
  rw [h1, roundHalfUp_intCast]

/-- The subtotal accumulated by the reservation loop is a whole number of
cents: it is a sum of quantized line totals. -/
theorem processCartItems_subtotal_cents (products : List Product) (oid : Nat) :
    ∀ (cis : List CartItem) (invs : List Inventory)
      (r : List Inventory × List OrderItem × Rat × Int),
      processCartItems products oid invs cis = .ok r → IsCents r.2.2.1 := by
  intro cis
  induction cis with
  | nil =>
    intro invs r hok
    simp only [processCartItems] at hok
    cases hok
    exact IsCents_zero
  | cons ci rest ih =>
    intro invs r hok
    simp only [processCartItems] at hok
    split at hok
    · cases hok
    · split at hok
      · cases hok
      · split at hok
        · cases hok
        · split at hok
          · cases hok
          · rename_i rr invsF items sub ti hrec
            cases hok
            exact IsCents.add (IsCents_quantize _) (ih _ _ hrec)

/-- C8: every order created from a cart satisfies
tax = round_half_up(subtotal times 0.18), discount = 0 and
grand_total = round_half_up(subtotal + tax - discount); and for a
nonnegative subtotal this equals subtotal times 1.18 rounded half-up to 2
decimals, because the subtotal is a whole number of cents and round-half-up
commutes with adding it. -/
theorem order_totals (db : DB) (user_id : Nat) (sa pm : Option String)
    (nid : Nat) (o : Order)
    (h : createdOrder db user_id sa pm nid = some o) :
    o.tax = _quantize_money (o.subtotal * (18 / 100)) ∧
    o.discount = 0 ∧
    o.grand_total = _quantize_money (o.subtotal + o.tax - o.discount) ∧
    (0 ≤ o.subtotal →
      o.grand_total = _quantize_money (o.subtotal * (118 / 100))) := by
  simp only [createdOrder] at h
  cases hcr : create_order_from_cart db user_id sa pm nid with
  | error e =>
    rw [hcr] at h
    simp [Except.toOption] at h
  | ok p =>
    rw [hcr] at h
    simp only [Except.toOption, Option.map_some] at h
    cases h
    simp only [create_order_from_cart] at hcr
    split at hcr
    · cases hcr
    · split at hcr
      · cases hcr
      · split at hcr
        · cases hcr
        · rename_i r invs items subtotal total_items hr
          have hsub : IsCents subtotal := by
            have := processCartItems_subtotal_cents db.products nid _ _ _ hr
            simpa using this
          cases hcr
          refine ⟨rfl, rfl, by dsimp only; rw [sub_zero], ?_⟩
          intro h0
          dsimp only at h0 ⊢
          obtain ⟨s, hs⟩ := hsub
          have hsnn : 0 ≤ s := by
            have h1 : (0 : Rat) ≤ (s : Rat) := by
              have h2 : (s : Rat) = subtotal * 100 := by rw [hs]; field_simp
              rw [h2]
              exact mul_nonneg h0 (by norm_num)
            exact_mod_cast h1
          rw [hs]
          unfold _quantize_money
          have e1 : ((s : Rat) / 100 * (18 / 100) * 100) = (s : Rat) * (18 / 100) := by
            ring
          have e2 : ((s : Rat) / 100 * (118 / 100) * 100) = (s : Rat) * (118 / 100) := by
            ring
          rw [e1, e2]
          have e3 : (((s : Rat) / 100 +
              ((roundHalfUp ((s : Rat) * (18 / 100)) : Int) : Rat) / 100) * 100) =
              (((s + roundHalfUp ((s : Rat) * (18 / 100)) : Int) : Rat)) := by
            push_cast
            ring
          rw [e3, roundHalfUp_intCast]
          have hq : (0 : Rat) ≤ (s : Rat) * (18 / 100) :=
            mul_nonneg (by exact_mod_cast hsnn) (by norm_num)
          have key : roundHalfUp ((s : Rat) * (118 / 100)) =
              roundHalfUp ((s : Rat) * (18 / 100)) + s := by
            have h2 : ((s : Rat) * (118 / 100)) =
                ((s : Rat) * (18 / 100) + (s : Rat)) := by ring
            rw [h2, roundHalfUp_nonneg_add_int _ hq s hsnn]
          rw [key]
          push_cast
          ring

/-- Order produced by Scenario A: one 3-unit line at price 100, subtotal
300, tax 54, grand total 354. -/
def orderA : Order :=
  ⟨1, 1, none, none, "PENDING", 3, 300, 54, 0, 354, none, none, none, false⟩

/-- Store of Scenario A before checkout. -/
def dbA : DB :=
  { inventories := [⟨1, 10, 10, 0⟩]
    products := [⟨1, "widget", 100, "active"⟩]
    carts := [⟨1, [⟨1, 3⟩]⟩]
    orders := []
    orderItems := [] }

/-- Closed instance of the C8 theorem at Scenario A: the created order has
tax 54 = round_half_up(300 times 0.18) and grand total 354 = 300 times
1.18. -/
theorem order_totals_witness :
    createdOrder dbA 1 none none 1 = some orderA ∧
      orderA.tax = _quantize_money (orderA.subtotal * (18 / 100)) ∧
      (0 : Rat) ≤ orderA.subtotal ∧
      orderA.grand_total = _quantize_money (orderA.subtotal * (118 / 100)) :=
  ⟨by decide,
    (order_totals dbA 1 none none 1 orderA (by decide)).1,
    by decide,
    (order_totals dbA 1 none none 1 orderA (by decide)).2.2.2 (by decide)⟩

/-- Sanity checks of the money quantization against Decimal.quantize with
ROUND_HALF_UP: 1234.567 rounds to 1234.57, 0.025 rounds to 0.03, and
minus 2.5 rounds away from zero to minus 3. -/
theorem quantize_money_sanity :
    _quantize_money (Rat.divInt 1234567 1000) = Rat.divInt 123457 100 ∧
      _quantize_money (Rat.divInt 25 1000) = Rat.divInt 3 100 ∧
      roundHalfUp (Rat.divInt (-25) 10) = -3 := by decide

/-- Sanity checks of the ledger operations on concrete rows: a fitting
reserve moves stock from available to reserved, an oversized reserve fails
with Insufficient stock, a full release restores the row, and a release
with nothing reserved is clamped to a no-op. -/
theorem ledger_ops_sanity :
    reserve_stock (some ⟨1, 10, 10, 0⟩) 3 = .ok ⟨1, 10, 7, 3⟩ ∧
      reserve_stock (some ⟨1, 10, 2, 8⟩) 3 = .error ⟨400, "Insufficient stock"⟩ ∧
      releaseClamped ⟨1, 10, 7, 3⟩ 3 = ⟨1, 10, 10, 0⟩ ∧
      releaseClamped ⟨1, 10, 10, 0⟩ 3 = ⟨1, 10, 10, 0⟩ := by decide

end ECom
